import Mathlib

/-!
Shallow embedding of the audio playback engine of
`packages/player-core/src/player.rs` (the `AudioPlayer` controller, its
position-tracker task and its per-song decode/playback task), together with
theorems settling the specification claims about it.

Conventions: Rust `f64` values (volumes, positions, durations, times) are
modelled as exact rationals `ℚ`; the claims are about the arithmetic of the
code, not about float rounding.  Side effects (events emitted, messages
forwarded to the play task, task aborts/spawns) are made explicit as effect
lists returned next to the new state.
-/

set_option maxHeartbeats 1000000

/-- Modelled from the spec: `SongData` (the SongReference of the data model)
is defined outside the provided sources; the spec describes it as a tagged
variant, `Local{path}` or `Custom{opaque source}`, identified by an opaque
`music_id` string. -/
inductive SongData where
  | localFile (music_id : String) (file_path : String)
  | custom (music_id : String)
deriving DecidableEq, Repr

/-- Modelled from the spec: the opaque `music_id` accessor (`get_id`). -/
def SongData.get_id : SongData → String
  | .localFile music_id _ => music_id
  | .custom music_id => music_id

/-- Shared audio information cell (`struct AudioInfo`, player.rs lines 41-46):
name, duration and position of the currently loaded audio. -/
structure AudioInfo where
  audio_name : String
  duration : ℚ
  position : ℚ
deriving DecidableEq, Repr

/-- Default `AudioInfo` (Rust `AudioInfo::default()`). -/
def AudioInfo.default : AudioInfo :=
  { audio_name := "", duration := 0, position := 0 }

/-- Control messages (`AudioThreadMessage`): the closed command set processed
by `AudioPlayer::process_message`.  Each user command carries a callback id. -/
inductive AudioThreadMessage where
  | setCookie (callback_id : String) (cookie : String)
  | seekAudio (callback_id : String) (position : ℚ)
  | resumeAudio (callback_id : String)
  | pauseAudio (callback_id : String)
  | resumeOrPauseAudio (callback_id : String)
  | prevSong (callback_id : String)
  | nextSong (callback_id : String)
  | jumpToSong (callback_id : String) (song_index : Nat)
  | setPlaylist (callback_id : String) (songs : List SongData)
  | syncStatus
  | setVolume (callback_id : String) (volume : ℚ)
  | setVolumeRelative (callback_id : String) (volume : ℚ)
deriving DecidableEq, Repr

/-- Payload of the `SyncStatus` broadcast event, as composed by
`AudioPlayer::send_sync_status` (player.rs lines 334-355).  The audio
quality field, which comes from the play-task data, is not modelled. -/
structure SyncStatusData where
  music_id : String
  is_playing : Bool
  duration : ℚ
  position : ℚ
  volume : ℚ
  load_position : ℚ
  playlist_inited : Bool
  playlist : List SongData
deriving DecidableEq, Repr

/-- Broadcast events (`AudioThreadEvent`) emitted on the
"on-audio-thread-event" channel.  `FFTData` is omitted (not needed by any
claim). -/
inductive AudioThreadEvent where
  | loadingAudio (music_id : String)
  | loadAudio (music_id : String) (duration : ℚ)
  | playStatus (is_playing : Bool)
  | setDuration (duration : ℚ)
  | loadError (error : String)
  | playPosition (position : ℚ)
  | volumeChanged (volume : ℚ)
  | syncStatus (data : SyncStatusData)
deriving DecidableEq, Repr

/-- Observable side effects of one `process_message` call: broadcast events,
messages forwarded to the play task channel (`play_task_sx.send`), output
sink volume updates, task abort/spawn (from `recreate_play_task`) and the
per-command reply (`msg.ret`). -/
inductive CtrlEffect where
  | emitEvent (e : AudioThreadEvent)
  | forwardToTask (m : AudioThreadMessage)
  | setSinkVolume (v : ℚ)
  | abortPlayTask
  | spawnPlayTask (song : SongData)
  | reply (callback_id : String)
deriving DecidableEq, Repr

/-- Controller state: the fields of `struct AudioPlayer` that carry playback
state (player.rs lines 48-69).  `has_play_task` models whether
`current_play_task_handle` is `Some`; `audio_info` models the content of the
shared `current_audio_info` cell as seen by the controller. -/
structure AudioPlayerState where
  volume : ℚ
  is_playing : Bool
  playlist : List SongData
  playlist_inited : Bool
  current_play_index : Nat
  current_song : Option SongData
  has_play_task : Bool
  audio_info : AudioInfo
deriving DecidableEq, Repr

/-- State established by `AudioPlayer::new` (player.rs lines 160-176). -/
def AudioPlayerState.initial : AudioPlayerState :=
  { volume := 1/2
  , is_playing := false
  , playlist := []
  , playlist_inited := false
  , current_play_index := 0
  , current_song := none
  , has_play_task := false
  , audio_info := AudioInfo.default }

/-- Rust `f64::clamp(lo, hi)`: `lo` if below, `hi` if above, the value
otherwise. -/
def rustClamp (x lo hi : ℚ) : ℚ :=
  if x < lo then lo else if hi < x then hi else x

/-- `AudioPlayer::send_sync_status` (player.rs lines 334-355): compose the
status event payload from the controller state and the shared audio info. -/
def send_sync_status (s : AudioPlayerState) : SyncStatusData :=
  { music_id := (s.current_song.map SongData.get_id).getD ""
  , is_playing := s.is_playing
  , duration := s.audio_info.duration
  , position := s.audio_info.position
  , volume := s.volume
  , load_position := 0
  , playlist_inited := s.playlist_inited
  , playlist := s.playlist }

/-- `AudioPlayer::recreate_play_task` (player.rs lines 357-378): abort the
previous play task if any (`current_play_task_handle.take()`), then spawn a
new task for the current song when one exists; when no current song exists,
only log — the handle stays `None`. -/
def recreate_play_task (s : AudioPlayerState) : AudioPlayerState × List CtrlEffect :=
  let aborts : List CtrlEffect := if s.has_play_task then [CtrlEffect.abortPlayTask] else []
  match s.current_song with
  | some song =>
      ({ s with has_play_task := true }, aborts ++ [CtrlEffect.spawnPlayTask song])
  | none =>
      ({ s with has_play_task := false }, aborts)

/-- `AudioPlayer::process_message` (player.rs lines 183-332), arm by arm.
Early returns on an empty playlist produce no reply, exactly as in the
source (`return` before `msg.ret`). -/
def process_message (s : AudioPlayerState) (msg : AudioThreadMessage) :
    AudioPlayerState × List CtrlEffect :=
  match msg with
  | .setCookie cid _cookie =>
      (s, [CtrlEffect.reply cid])
  | .seekAudio cid position =>
      (s, [CtrlEffect.forwardToTask (.seekAudio cid position), CtrlEffect.reply cid])
  | .resumeAudio cid =>
      ({ s with is_playing := true },
       [CtrlEffect.forwardToTask (.resumeAudio cid),
        CtrlEffect.emitEvent (.playStatus true), CtrlEffect.reply cid])
  | .pauseAudio cid =>
      ({ s with is_playing := false },
       [CtrlEffect.forwardToTask (.pauseAudio cid),
        CtrlEffect.emitEvent (.playStatus false), CtrlEffect.reply cid])
  | .resumeOrPauseAudio cid =>
      let b := !s.is_playing
      ({ s with is_playing := b },
       (if b then
          [CtrlEffect.forwardToTask (.resumeAudio cid),
           CtrlEffect.emitEvent (.playStatus true)]
        else
          [CtrlEffect.forwardToTask (.pauseAudio cid),
           CtrlEffect.emitEvent (.playStatus false)]) ++ [CtrlEffect.reply cid])
  | .prevSong cid =>
      if s.playlist.isEmpty then (s, [])
      else
        let idx := if s.current_play_index = 0 then s.playlist.length - 1
                   else s.current_play_index - 1
        let s1 := { s with current_play_index := idx
                         , current_song := s.playlist.get? idx
                         , is_playing := true }
        let r := recreate_play_task s1
        (r.1, r.2 ++ [CtrlEffect.reply cid])
  | .nextSong cid =>
      let s0 := { s with is_playing := true }
      if s0.playlist.isEmpty then (s0, [])
      else
        let idx := (s0.current_play_index + 1) % s0.playlist.length
        let s1 := { s0 with current_play_index := idx
                          , current_song := s0.playlist.get? idx }
        let r := recreate_play_task s1
        (r.1, r.2 ++ [CtrlEffect.reply cid])
  | .jumpToSong cid song_index =>
      if s.playlist.isEmpty then (s, [])
      else
        let s1 := { s with is_playing := true
                         , current_play_index := song_index
                         , current_song := s.playlist.get? song_index }
        let r := recreate_play_task s1
        (r.1, r.2 ++ [CtrlEffect.reply cid])
  | .setPlaylist cid songs =>
      ({ s with playlist_inited := true, playlist := songs },
       [CtrlEffect.reply cid])
  | .syncStatus =>
      (s, [CtrlEffect.emitEvent (.syncStatus (send_sync_status s))])
  | .setVolume cid volume =>
      let nv := rustClamp volume 0 1
      ({ s with volume := nv },
       [CtrlEffect.setSinkVolume nv,
        CtrlEffect.emitEvent (.volumeChanged nv), CtrlEffect.reply cid])
  | .setVolumeRelative cid volume =>
      let nv := rustClamp (s.volume + volume) 0 1
      ({ s with volume := nv },
       [CtrlEffect.setSinkVolume nv,
        CtrlEffect.emitEvent (.volumeChanged nv), CtrlEffect.reply cid])

/-!
Position tracker task (player.rs lines 100-158).  The task keeps
`is_inited`, `last_is_playing`, `start_base_time` (the position baseline) and
`inst` (the monotonic anchor instant).  Time is modelled as an absolute
rational clock passed to each loop iteration; `inst.elapsed()` at time `now`
is `now - inst`.
-/

/-- State of the position tracker loop.  `inst` holds the absolute time of
the current anchor (`Instant`); it is first set when the task starts. -/
structure TrackerState where
  is_inited : Bool
  last_is_playing : Bool
  start_base_time : ℚ
  inst : ℚ
deriving DecidableEq, Repr

/-- Tracker state when the task starts at absolute time `t0`
(player.rs lines 103-106). -/
def TrackerState.start (t0 : ℚ) : TrackerState :=
  { is_inited := false, last_is_playing := false, start_base_time := 0, inst := t0 }

/-- What one tracker loop iteration finds on its channel: a snapshot
(`Ok(Some(..))`), a reset (`Ok(None)`), or nothing (`Err(Empty)`). -/
inductive TrackerInput where
  | recv (snap : Option (Bool × ℚ))
  | emptyMailbox
deriving DecidableEq, Repr

/-- One iteration of the tracker loop body at absolute time `now`
(player.rs lines 108-153), returning the new state and the `PlayPosition`
values emitted during the iteration.  The final tick (lines 146-153) emits
`start_base_time + inst.elapsed()` whenever the tracker is initialised and
playing. -/
def tracker_step (s : TrackerState) (input : TrackerInput) (now : ℚ) :
    TrackerState × List ℚ :=
  let r : TrackerState × List ℚ :=
    match input with
    | .recv (some (is_playing, pos)) =>
        let sa := if s.is_inited then s
                  else { s with is_inited := true, last_is_playing := is_playing
                                , start_base_time := pos }
        if is_playing ≠ sa.last_is_playing then
          let sb := { sa with last_is_playing := is_playing, start_base_time := pos }
          if is_playing then ({ sb with inst := now }, [])
          else (sb, [pos])
        else if is_playing = false then
          ({ sa with start_base_time := pos, inst := now }, [pos])
        else (sa, [])
    | .recv none => ({ s with is_inited := false }, [])
    | .emptyMailbox => (s, [])
  let tick : List ℚ :=
    if r.1.is_inited && r.1.last_is_playing then [r.1.start_base_time + (now - r.1.inst)]
    else []
  (r.1, r.2 ++ tick)

/-- Run the tracker loop over a timed trace of inputs, collecting every
emitted `PlayPosition` value in order. -/
def tracker_run (s : TrackerState) : List (TrackerInput × ℚ) → TrackerState × List ℚ
  | [] => (s, [])
  | (i, t) :: rest =>
      let r1 := tracker_step s i t
      let r2 := tracker_run r1.1 rest
      (r2.1, r1.2 ++ r2.2)

/-!
Decode/playback task (player.rs lines 380-616).  The play loop state,
its control-message handling, the classification of packet-read and decode
errors, and the event-level behaviour of `play_audio`.
-/

/-- Observable side effects of the decode task's play loop: a coarse format
seek, a snapshot sent to the position tracker (`play_pos_sx.send`), a push
of decoded samples into the FFT buffer, the FFT wake-up trigger, and a PCM
write to the output sink. -/
inductive TaskEffect where
  | formatSeek (position : ℚ)
  | posSnapshot (snap : Option (Bool × ℚ))
  | fftPush
  | fftTrigger
  | sinkWrite
deriving DecidableEq, Repr

/-- Local state of the play loop (player.rs lines 511-513) together with the
shared `AudioInfo` cell the task writes through `ctx.current_audio_info`. -/
structure PlayTaskState where
  is_playing : Bool
  last_play_pos : ℚ
  audio_info : AudioInfo
deriving DecidableEq, Repr

/-- Where the non-blocking drain of the control channel hands control:
either on to `next_packet` (channel empty) or back to the top of the play
loop (a pause was processed, `continue 'play_loop`). -/
inductive DrainResult where
  | toPacket
  | toTopLevel
deriving DecidableEq, Repr

/-- Non-blocking drain of pending control messages in the Playing branch
(player.rs lines 516-547).  A seek performs the coarse format seek,
publishes `(false, position)` to the tracker and writes the shared position;
a pause publishes `(false, last_play_pos)`, clears the playing flag and
jumps back to the top of the loop; other messages are ignored. -/
def drain_messages (s : PlayTaskState) :
    List AudioThreadMessage → PlayTaskState × List TaskEffect × DrainResult
  | [] => (s, [], DrainResult.toPacket)
  | msg :: rest =>
      match msg with
      | .seekAudio _ position =>
          let s1 := { s with audio_info := { s.audio_info with position := position } }
          let r := drain_messages s1 rest
          (r.1, TaskEffect.formatSeek position ::
                TaskEffect.posSnapshot (some (false, position)) :: r.2.1, r.2.2)
      | .pauseAudio _ =>
          ({ s with is_playing := false },
           [TaskEffect.posSnapshot (some (false, s.last_play_pos))],
           DrainResult.toTopLevel)
      | _ => drain_messages s rest

/-- Blocking receive of one control message in the Paused branch
(player.rs lines 585-608): a seek seeks, publishes `(false, position)` and
writes the shared position without resuming; a resume sets the playing
flag; other messages are ignored. -/
def paused_step (s : PlayTaskState) (msg : AudioThreadMessage) :
    PlayTaskState × List TaskEffect
  := match msg with
  | .seekAudio _ position =>
      ({ s with audio_info := { s.audio_info with position := position } },
       [TaskEffect.formatSeek position,
        TaskEffect.posSnapshot (some (false, position))])
  | .resumeAudio _ => ({ s with is_playing := true }, [])
  | _ => (s, [])

/-- Successful-decode branch (player.rs lines 567-578): update
`last_play_pos` and the shared position from the packet timestamp; then,
only when at least one webview window exists, publish `(true, position)` to
the tracker, push samples to the FFT buffer and trigger the FFT task; always
write the PCM buffer to the output sink. -/
def on_packet_decoded (s : PlayTaskState) (play_position : ℚ) (has_windows : Bool) :
    PlayTaskState × List TaskEffect :=
  let s1 := { s with last_play_pos := play_position
                   , audio_info := { s.audio_info with position := play_position } }
  (s1,
   (if has_windows then
      [TaskEffect.posSnapshot (some (true, play_position)),
       TaskEffect.fftPush, TaskEffect.fftTrigger]
    else []) ++ [TaskEffect.sinkWrite])

/-- Kinds of `std::io::Error` distinguished by the packet-read handler. -/
inductive IoErrorKind where
  | unexpectedEof
  | wouldBlock
  | otherKind
deriving DecidableEq, Repr

/-- Result of `format.next_packet()` as matched by the play loop:
a packet, an I/O error with its kind and message, or another decode-library
error. -/
inductive NextPacketResult (P : Type) where
  | ok (packet : P)
  | ioError (kind : IoErrorKind) (msg : String)
  | otherError (msg : String)
deriving DecidableEq, Repr

/-- What the play loop does with a packet-read result. -/
inductive LoopStep (P : Type) where
  | breakOk
  | breakErr (msg : String)
  | retry
  | decodePacket (packet : P)
deriving DecidableEq, Repr

/-- Packet-read error handling (player.rs lines 549-566): end-of-stream
(an `UnexpectedEof` whose message is "end of stream") breaks the loop with
success; `WouldBlock` retries; every other I/O error and every non-I/O
error breaks the loop with an error. -/
def classify_next_packet {P : Type} : NextPacketResult P → LoopStep P
  | .ok packet => .decodePacket packet
  | .ioError .unexpectedEof msg =>
      if msg = "end of stream" then .breakOk else .breakErr msg
  | .ioError .wouldBlock _msg => .retry
  | .ioError .otherKind msg => .breakErr msg
  | .otherError msg => .breakErr msg

/-- Result of `decoder.decode(&packet)` as matched by the play loop:
a sample buffer, a packet-level decode error, or another error. -/
inductive DecodeResult (B : Type) where
  | ok (buf : B)
  | decodeError (msg : String)
  | otherError (msg : String)
deriving DecidableEq, Repr

/-- What the play loop does with a decode result. -/
inductive DecodeStep (B : Type) where
  | useBuffer (buf : B)
  | skipPacket
  | breakErr (msg : String)
deriving DecidableEq, Repr

/-- Decode error handling (player.rs lines 567-584): a packet-level
`DecodeError` is logged and skipped, the loop continues; any other decode
error breaks the loop with an error; a successful buffer is consumed. -/
def classify_decode {B : Type} : DecodeResult B → DecodeStep B
  | .ok buf => .useBuffer buf
  | .decodeError _msg => .skipPacket
  | .otherError msg => .breakErr msg

/-!
Event-level behaviour of `play_audio` (player.rs lines 380-415) and
`play_media_stream` (lines 431-616): which broadcast events a decode task
emits for its song, depending on where loading or playback fails, and the
implicit `NextSong` it sends back into the controller's queue on exit.
-/

/-- Failures of the load phase inside `play_media_stream`: probe failure
(line 454), no default track (line 476), no usable decoder (line 480).
Each is propagated out of `play_media_stream` with `?`. -/
inductive StreamLoadError where
  | probeFailed
  | noDefaultTrack
  | noDecoder
deriving DecidableEq, Repr

/-- Error message attached to each load failure by `.context(..)`. -/
def StreamLoadError.message : StreamLoadError → String
  | .probeFailed => "无法解码正在加载的音频数据信息"
  | .noDefaultTrack => "无法解码正在加载的音频的默认音轨"
  | .noDecoder => "无法为当前音频文件选择解码器"

/-- Ways the play loop (`'play_loop`) terminates, once loading succeeded:
end of stream (`break Ok(())`, line 556), a disconnected control channel
(line 543), a fatal packet-read error (lines 560, 564) or a fatal
stream-level decode error (line 583). -/
inductive PlayLoopExit where
  | endOfStream
  | channelDisconnected
  | fatalIoError (msg : String)
  | fatalDecodeError (msg : String)
deriving DecidableEq, Repr

/-- Events emitted by `play_media_stream` and its returned result
(player.rs lines 431-616).  On a load failure nothing was emitted yet and
the error propagates to the caller.  Once loading succeeds, `LoadAudio`,
`PlayStatus{true}` and `SetDuration` are emitted (lines 488-505) before the
loop runs, and the loop's own result is only logged (lines 611-613): the
function returns `Ok(())` whatever `PlayLoopExit` occurred. -/
def play_media_stream_run (music_id : String) (duration : ℚ) :
    Except StreamLoadError PlayLoopExit →
    List AudioThreadEvent × Except String Unit
  | .error e => ([], .error e.message)
  | .ok _exit =>
      ([AudioThreadEvent.loadAudio music_id duration,
        AudioThreadEvent.playStatus true,
        AudioThreadEvent.setDuration duration],
       .ok ())

/-- How loading a local file can go inside the decode task: the initial
`File::open` fails (`play_audio_from_local`, line 423), or the media stream
runs with some outcome. -/
inductive LocalLoadOutcome where
  | openFailed
  | streamResult (r : Except StreamLoadError PlayLoopExit)
deriving Repr

/-- Observable trace of one `play_audio` task run: the broadcast events in
order, and how many implicit `NextSong` requests it sends back into the
audio thread's queue. -/
structure PlayAudioTrace where
  events : List AudioThreadEvent
  next_song_requests : Nat
deriving DecidableEq, Repr

/-- `play_audio` (player.rs lines 380-415): emit `LoadingAudio`, run the
local-file load, convert an error result into a single `LoadError` event,
and unconditionally send one `NextSong` request back to the audio thread. -/
def play_audio_run (music_id : String) (duration : ℚ) (oc : LocalLoadOutcome) :
    PlayAudioTrace :=
  let inner : List AudioThreadEvent × Except String Unit :=
    match oc with
    | .openFailed => ([], .error "无法打开本地音频文件")
    | .streamResult r => play_media_stream_run music_id duration r
  let errEvents : List AudioThreadEvent :=
    match inner.2 with
    | .error e => [AudioThreadEvent.loadError e]
    | .ok _ => []
  { events := AudioThreadEvent.loadingAudio music_id :: (inner.1 ++ errEvents)
  , next_song_requests := 1 }

/-- Counts occurrences of `LoadError` events in a trace. -/
def countLoadError (es : List AudioThreadEvent) : Nat :=
  es.countP (fun e => match e with | .loadError _ => true | _ => false)

/-- Counts occurrences of `LoadAudio` events in a trace. -/
def countLoadAudio (es : List AudioThreadEvent) : Nat :=
  es.countP (fun e => match e with | .loadAudio _ _ => true | _ => false)

/-- Counts occurrences of `PlayStatus` events in a trace. -/
def countPlayStatus (es : List AudioThreadEvent) : Nat :=
  es.countP (fun e => match e with | .playStatus _ => true | _ => false)

/-- Index invariant of the controller: whenever the playlist is non-empty,
the current play index is strictly below its length. -/
def index_invariant (s : AudioPlayerState) : Prop :=
  s.playlist ≠ [] → s.current_play_index < s.playlist.length

instance (s : AudioPlayerState) : Decidable (index_invariant s) := by
  unfold index_invariant; infer_instance

/-- Sample song for concrete witnesses and counterexamples. -/
def song_a : SongData := SongData.localFile "a" "a.mp3"

/-- Sample song for concrete witnesses and counterexamples. -/
def song_b : SongData := SongData.localFile "b" "b.mp3"

/-- Sample song for concrete witnesses and counterexamples. -/
def song_c : SongData := SongData.localFile "c" "c.mp3"

/-- Sample controller state: three-song playlist, current index 1, an active
play task. -/
def state_abc : AudioPlayerState :=
  { volume := 1/2
  , is_playing := true
  , playlist := [song_a, song_b, song_c]
  , playlist_inited := true
  , current_play_index := 1
  , current_song := some song_b
  , has_play_task := true
  , audio_info := AudioInfo.default }

/-- Sample play-task state for concrete witnesses. -/
def task_state_0 : PlayTaskState :=
  { is_playing := true, last_play_pos := 3, audio_info := AudioInfo.default }

/-!
Helper lemmas shared between claim theorems.
-/

theorem recreate_preserves_playlist (s : AudioPlayerState) :
    (recreate_play_task s).1.playlist = s.playlist := by
  unfold recreate_play_task
  cases s.current_song <;> rfl

theorem recreate_preserves_index (s : AudioPlayerState) :
    (recreate_play_task s).1.current_play_index = s.current_play_index := by
  unfold recreate_play_task
  cases s.current_song <;> rfl

theorem recreate_preserves_current_song (s : AudioPlayerState) :
    (recreate_play_task s).1.current_song = s.current_song := by
  unfold recreate_play_task
  cases s.current_song <;> rfl

theorem rustClamp_unit (x : ℚ) : rustClamp x 0 1 = max 0 (min x 1) := by
  unfold rustClamp
  rcases lt_trichotomy x 0 with h | h | h
  · rw [if_pos h, max_eq_left]
    exact min_le_of_left_le h.le
  · subst h
    norm_num
  · rw [if_neg (not_lt.mpr h.le)]
    by_cases h1 : 1 < x
    · rw [if_pos h1, min_eq_right h1.le, max_eq_right zero_le_one]
    · rw [if_neg h1, min_eq_left (not_lt.mp h1), max_eq_right h.le]

theorem tracker_run_while_playing (p t : ℚ) :
    ∀ trace : List (TrackerInput × ℚ),
    (∀ it ∈ trace, it.1 = TrackerInput.emptyMailbox ∨
      ∃ r : ℚ, it.1 = TrackerInput.recv (some (true, r))) →
    (tracker_run ⟨true, true, p, t⟩ trace).2 = trace.map (fun it => p + (it.2 - t)) := by
  intro trace
  induction trace with
  | nil => intro _; rfl
  | cons it rest ih =>
      intro htr
      obtain ⟨i, t'⟩ := it
      have hi := htr ⟨i, t'⟩ (List.mem_cons_self _ _)
      have hrest := fun it hm => htr it (List.mem_cons_of_mem _ hm)
      rcases hi with hi | ⟨r, hi⟩ <;> simp only at hi <;> subst hi <;>
        simp [tracker_run, tracker_step, ih hrest]

theorem tracker_run_while_stopped (s : TrackerState)
    (hnp : s.last_is_playing = false) :
    ∀ etrace : List (TrackerInput × ℚ),
    (∀ it ∈ etrace, it.1 = TrackerInput.emptyMailbox) →
    (tracker_run s etrace).2 = [] := by
  intro etrace
  induction etrace with
  | nil => intro _; rfl
  | cons it rest ih =>
      intro het
      obtain ⟨i, t'⟩ := it
      have hi := het ⟨i, t'⟩ (List.mem_cons_self _ _)
      simp only at hi
      subst hi
      have hrest := fun it hm => het it (List.mem_cons_of_mem _ hm)
      simp [tracker_run, tracker_step, hnp, ih hrest]

/-- C3: for every playlist of length N ≥ 1 and current index i < N,
`NextSong` moves the current index to `(i+1) mod N` and `PrevSong` to
`(i-1+N) mod N`, and in both cases the current song becomes the playlist
entry at the new index. -/
theorem next_prev_song_wraparound (s : AudioPlayerState) (cid cid2 : String)
    (hne : s.playlist ≠ []) (hlt : s.current_play_index < s.playlist.length) :
    (process_message s (AudioThreadMessage.nextSong cid)).1.current_play_index
      = (s.current_play_index + 1) % s.playlist.length
    ∧ (process_message s (AudioThreadMessage.nextSong cid)).1.current_song
      = s.playlist.get? ((s.current_play_index + 1) % s.playlist.length)
    ∧ (process_message s (AudioThreadMessage.prevSong cid2)).1.current_play_index
      = (s.current_play_index + s.playlist.length - 1) % s.playlist.length
    ∧ (process_message s (AudioThreadMessage.prevSong cid2)).1.current_song
      = s.playlist.get? ((s.current_play_index + s.playlist.length - 1)
          % s.playlist.length) := by
  have hN : 0 < s.playlist.length := List.length_pos.mpr hne
  have hemp : s.playlist.isEmpty = false := by
    simp [List.isEmpty_iff]; exact hne
  have hprev : (if s.current_play_index = 0 then s.playlist.length - 1
      else s.current_play_index - 1)
      = (s.current_play_index + s.playlist.length - 1) % s.playlist.length := by
    by_cases h0 : s.current_play_index = 0
    · rw [if_pos h0, h0]
      rw [Nat.zero_add, Nat.mod_eq_of_lt (by omega)]
    · have h1 : s.current_play_index + s.playlist.length - 1
          = (s.current_play_index - 1) + s.playlist.length := by omega
      rw [if_neg h0, h1, Nat.add_mod_right, Nat.mod_eq_of_lt (by omega)]
  refine ⟨?_, ?_, ?_, ?_⟩ <;>
    simp [process_message, hemp, recreate_preserves_index,
      recreate_preserves_current_song, hprev]

/-- C3 witness: concrete three-song playlist at index 1. -/
theorem next_prev_song_wraparound_witness :
    state_abc.playlist ≠ [] ∧
    state_abc.current_play_index < state_abc.playlist.length ∧
    ((process_message state_abc (AudioThreadMessage.nextSong "n")).1.current_play_index
      = (state_abc.current_play_index + 1) % state_abc.playlist.length
    ∧ (process_message state_abc (AudioThreadMessage.nextSong "n")).1.current_song
      = state_abc.playlist.get? ((state_abc.current_play_index + 1) % state_abc.playlist.length)
    ∧ (process_message state_abc (AudioThreadMessage.prevSong "p")).1.current_play_index
      = (state_abc.current_play_index + state_abc.playlist.length - 1) % state_abc.playlist.length
    ∧ (process_message state_abc (AudioThreadMessage.prevSong "p")).1.current_song
      = state_abc.playlist.get? ((state_abc.current_play_index + state_abc.playlist.length - 1)
          % state_abc.playlist.length)) :=
  ⟨by decide, by decide,
   next_prev_song_wraparound state_abc "n" "p" (by decide) (by decide)⟩

/-- C4 counterexample: `NextSong` on an empty playlist sets the play flag to
true before the empty-playlist check, so the controller state is changed
(the claim says every field is left unchanged). -/
theorem empty_playlist_nextsong_counterexample :
    AudioPlayerState.initial.playlist = [] ∧
    AudioPlayerState.initial.is_playing = false ∧
    (process_message AudioPlayerState.initial
      (AudioThreadMessage.nextSong "cb")).1.is_playing = true ∧
    (process_message AudioPlayerState.initial (AudioThreadMessage.nextSong "cb")).1
      ≠ AudioPlayerState.initial := by
  refine ⟨rfl, rfl, rfl, fun h => ?_⟩
  exact absurd (congrArg AudioPlayerState.is_playing h) (by decide)

/-- C4 amended: on an empty playlist, `PrevSong` and `JumpTo` leave the
state fully unchanged and emit no effect; `NextSong` emits no effect and
leaves every field unchanged except the play flag, which it sets to true
before the empty-playlist check.  In particular none of the three performs
task recreation. -/
theorem empty_playlist_commands_amended (s : AudioPlayerState)
    (cid cid2 cid3 : String) (i : Nat) (h : s.playlist = []) :
    process_message s (AudioThreadMessage.prevSong cid) = (s, []) ∧
    process_message s (AudioThreadMessage.jumpToSong cid2 i) = (s, []) ∧
    process_message s (AudioThreadMessage.nextSong cid3)
      = ({ s with is_playing := true }, []) := by
  have hemp : s.playlist.isEmpty = true := by simp [h]
  refine ⟨?_, ?_, ?_⟩ <;> simp [process_message, hemp]

/-- C4 witness: the empty-playlist behaviour at the initial state. -/
theorem empty_playlist_commands_amended_witness :
    AudioPlayerState.initial.playlist = [] ∧
    (process_message AudioPlayerState.initial (AudioThreadMessage.prevSong "p")
      = (AudioPlayerState.initial, []) ∧
    process_message AudioPlayerState.initial (AudioThreadMessage.jumpToSong "j" 5)
      = (AudioPlayerState.initial, []) ∧
    process_message AudioPlayerState.initial (AudioThreadMessage.nextSong "n")
      = ({ AudioPlayerState.initial with is_playing := true }, [])) :=
  ⟨rfl, empty_playlist_commands_amended AudioPlayerState.initial "p" "j" "n" 5 rfl⟩

/-- C8: `SetVolume(v)` stores v clamped to [0,1], `SetVolumeRelative(d)`
stores `current + d` clamped to [0,1], each emitting a `VolumeChanged`
event carrying the new volume; in particular `SetVolume(5.0)` yields 1.0
and `SetVolumeRelative(-2.0)` from 0.3 yields 0.0. -/
theorem volume_commands_clamp (s : AudioPlayerState) (cid cid2 : String) (v d : ℚ) :
    (process_message s (AudioThreadMessage.setVolume cid v)).1.volume = max 0 (min v 1) ∧
    (process_message s (AudioThreadMessage.setVolumeRelative cid2 d)).1.volume
      = max 0 (min (s.volume + d) 1) ∧
    CtrlEffect.emitEvent (AudioThreadEvent.volumeChanged
        ((process_message s (AudioThreadMessage.setVolume cid v)).1.volume))
      ∈ (process_message s (AudioThreadMessage.setVolume cid v)).2 ∧
    CtrlEffect.emitEvent (AudioThreadEvent.volumeChanged
        ((process_message s (AudioThreadMessage.setVolumeRelative cid2 d)).1.volume))
      ∈ (process_message s (AudioThreadMessage.setVolumeRelative cid2 d)).2 ∧
    (process_message s (AudioThreadMessage.setVolume cid 5)).1.volume = 1 ∧
    (process_message { s with volume := 3/10 }
      (AudioThreadMessage.setVolumeRelative cid2 (-2))).1.volume = 0 := by
  refine ⟨?_, ?_, ?_, ?_, ?_, ?_⟩
  · simp [process_message, rustClamp_unit]
  · simp [process_message, rustClamp_unit]
  · simp [process_message]
  · simp [process_message]
  · norm_num [process_message, rustClamp]
  · norm_num [process_message, rustClamp]

/-- C10: a `JumpTo` whose index is at least the length of a non-empty
playlist causes no out-of-bounds access: the playlist lookup returns no
song, the current song becomes none, the previous play task is aborted,
and no new play task is spawned. -/
theorem jump_out_of_range_safe (s : AudioPlayerState) (cid : String) (i : Nat)
    (hne : s.playlist ≠ []) (hge : s.playlist.length ≤ i) :
    s.playlist.get? i = none ∧
    (process_message s (AudioThreadMessage.jumpToSong cid i)).1.current_song = none ∧
    (process_message s (AudioThreadMessage.jumpToSong cid i)).1.has_play_task = false ∧
    (∀ song, CtrlEffect.spawnPlayTask song
      ∉ (process_message s (AudioThreadMessage.jumpToSong cid i)).2) ∧
    (s.has_play_task = true →
      CtrlEffect.abortPlayTask ∈ (process_message s (AudioThreadMessage.jumpToSong cid i)).2) := by
  have hemp : s.playlist.isEmpty = false := by
    simp [List.isEmpty_iff]; exact hne
  have hnone : s.playlist.get? i = none := List.get?_eq_none.mpr hge
  have hnone2 : s.playlist[i]? = none := by
    rw [← List.get?_eq_getElem?]; exact hnone
  refine ⟨hnone, ?_, ?_, ?_, ?_⟩ <;>
    cases hh : s.has_play_task <;>
      simp [process_message, recreate_play_task, hemp, hnone, hnone2, hh]

/-- C10 witness: jump to index 5 in a three-song playlist with an active
play task. -/
theorem jump_out_of_range_safe_witness :
    state_abc.playlist ≠ [] ∧ state_abc.playlist.length ≤ 5 ∧
    (state_abc.playlist.get? 5 = none ∧
    (process_message state_abc (AudioThreadMessage.jumpToSong "j" 5)).1.current_song = none ∧
    (process_message state_abc (AudioThreadMessage.jumpToSong "j" 5)).1.has_play_task = false ∧
    (∀ song, CtrlEffect.spawnPlayTask song
      ∉ (process_message state_abc (AudioThreadMessage.jumpToSong "j" 5)).2) ∧
    (state_abc.has_play_task = true →
      CtrlEffect.abortPlayTask ∈ (process_message state_abc (AudioThreadMessage.jumpToSong "j" 5)).2)) :=
  ⟨by decide, by decide,
   jump_out_of_range_safe state_abc "j" 5 (by decide) (by decide)⟩

/-- C9 counterexample: the controller's index invariant (index < length on
a non-empty playlist) is violated both by `JumpTo` with an out-of-range
index and by `SetPlaylist` with a list no longer than the current index. -/
theorem index_invariant_counterexample :
    index_invariant state_abc ∧
    ¬ index_invariant (process_message state_abc (AudioThreadMessage.jumpToSong "j" 5)).1 ∧
    ¬ index_invariant (process_message state_abc (AudioThreadMessage.setPlaylist "s" [song_a])).1 := by
  refine ⟨by decide, ?_, ?_⟩ <;> decide

/-- C9 amended: the index invariant is preserved by every control message
except `JumpTo` with an index not below the playlist length and
`SetPlaylist` with a non-empty list no longer than the current index;
under the added range assumptions on those two messages, every message
preserves it. -/
theorem index_invariant_preserved_amended (s : AudioPlayerState)
    (msg : AudioThreadMessage) (hInv : index_invariant s)
    (hjump : ∀ cid i, msg = AudioThreadMessage.jumpToSong cid i →
      s.playlist = [] ∨ i < s.playlist.length)
    (hset : ∀ cid songs, msg = AudioThreadMessage.setPlaylist cid songs →
      songs = [] ∨ s.current_play_index < songs.length) :
    index_invariant (process_message s msg).1 := by
  cases msg with
  | prevSong cid =>
      by_cases hemp : s.playlist.isEmpty
      · simpa [process_message, hemp] using hInv
      · have hne : s.playlist ≠ [] := by
          simpa [List.isEmpty_iff] using hemp
        have hN : 0 < s.playlist.length := List.length_pos.mpr hne
        have hlt := hInv hne
        intro hne2
        rw [process_message]
        simp only [hemp, Bool.false_eq_true, if_false, recreate_preserves_index,
          recreate_preserves_playlist]
        by_cases h0 : s.current_play_index = 0 <;> simp [h0] <;> omega
  | nextSong cid =>
      by_cases hemp : s.playlist.isEmpty
      · have hnil : s.playlist = [] := by simpa [List.isEmpty_iff] using hemp
        intro hne2
        rw [process_message] at hne2 ⊢
        simp only [hemp, if_true] at hne2 ⊢
        exact absurd hnil (by simpa using hne2)
      · have hne : s.playlist ≠ [] := by
          simpa [List.isEmpty_iff] using hemp
        have hN : 0 < s.playlist.length := List.length_pos.mpr hne
        intro hne2
        rw [process_message]
        simp only [hemp, Bool.false_eq_true, if_false, recreate_preserves_index,
          recreate_preserves_playlist]
        exact Nat.mod_lt _ hN
  | jumpToSong cid i =>
      by_cases hemp : s.playlist.isEmpty
      · simpa [process_message, hemp] using hInv
      · have hne : s.playlist ≠ [] := by
          simpa [List.isEmpty_iff] using hemp
        have hi := (hjump cid i rfl).resolve_left hne
        intro hne2
        rw [process_message]
        simp only [hemp, Bool.false_eq_true, if_false, recreate_preserves_index,
          recreate_preserves_playlist]
        exact hi
  | setPlaylist cid songs =>
      intro hne2
      rw [process_message] at hne2 ⊢
      simp only at hne2 ⊢
      have hsongs : songs ≠ [] := by simpa using hne2
      exact (hset cid songs rfl).resolve_left hsongs
  | setCookie cid cookie => simpa [process_message] using hInv
  | seekAudio cid position => simpa [process_message] using hInv
  | resumeAudio cid => simpa [process_message] using hInv
  | pauseAudio cid => simpa [process_message] using hInv
  | resumeOrPauseAudio cid => simpa [process_message] using hInv
  | syncStatus => simpa [process_message] using hInv
  | setVolume cid volume => simpa [process_message] using hInv
  | setVolumeRelative cid volume => simpa [process_message] using hInv

/-- C9 witness: the amended invariant preservation at a concrete state and
message (NextSong on the three-song playlist). -/
theorem index_invariant_preserved_amended_witness :
    index_invariant state_abc ∧
    index_invariant (process_message state_abc (AudioThreadMessage.nextSong "n")).1 :=
  ⟨by decide,
   index_invariant_preserved_amended state_abc (AudioThreadMessage.nextSong "n")
     (by decide) (fun _ _ h => nomatch h) (fun _ _ h => nomatch h)⟩

/-- C5: a Seek to time T — handled in the Playing state by the non-blocking
drain that runs before any packet is fetched, and in the Paused state by the
blocking receive — performs the coarse format seek, publishes the snapshot
(false, T) to the position tracker and sets the shared AudioInfo position to
T; the playing flag is unchanged in both states, so a seek while Paused does
not resume, and a SyncStatus composed from a controller sharing that
AudioInfo cell reports position = T. -/
theorem seek_sets_position (s s2 : PlayTaskState) (cid cid2 : String) (T : ℚ)
    (c : AudioPlayerState)
    (hc : c.audio_info
      = (drain_messages s [AudioThreadMessage.seekAudio cid T]).1.audio_info) :
    (drain_messages s [AudioThreadMessage.seekAudio cid T]).1.audio_info.position = T ∧
    (drain_messages s [AudioThreadMessage.seekAudio cid T]).1.is_playing = s.is_playing ∧
    (drain_messages s [AudioThreadMessage.seekAudio cid T]).2.1
      = [TaskEffect.formatSeek T, TaskEffect.posSnapshot (some (false, T))] ∧
    (drain_messages s [AudioThreadMessage.seekAudio cid T]).2.2 = DrainResult.toPacket ∧
    (paused_step s2 (AudioThreadMessage.seekAudio cid2 T)).1.audio_info.position = T ∧
    (paused_step s2 (AudioThreadMessage.seekAudio cid2 T)).1.is_playing = s2.is_playing ∧
    (paused_step s2 (AudioThreadMessage.seekAudio cid2 T)).2
      = [TaskEffect.formatSeek T, TaskEffect.posSnapshot (some (false, T))] ∧
    (send_sync_status c).position = T := by
  refine ⟨?_, ?_, ?_, ?_, ?_, ?_, ?_, ?_⟩ <;>
    simp [drain_messages, paused_step, send_sync_status, hc]

/-- C5 witness: seek to 42 from the sample task state, with a controller
sharing the resulting AudioInfo cell. -/
theorem seek_sets_position_witness :
    ({ state_abc with audio_info := { audio_name := "", duration := 0, position := 42 } }
        : AudioPlayerState).audio_info
      = (drain_messages task_state_0 [AudioThreadMessage.seekAudio "s" 42]).1.audio_info ∧
    ((drain_messages task_state_0 [AudioThreadMessage.seekAudio "s" 42]).1.audio_info.position = 42 ∧
    (drain_messages task_state_0 [AudioThreadMessage.seekAudio "s" 42]).1.is_playing
      = task_state_0.is_playing ∧
    (drain_messages task_state_0 [AudioThreadMessage.seekAudio "s" 42]).2.1
      = [TaskEffect.formatSeek 42, TaskEffect.posSnapshot (some (false, 42))] ∧
    (drain_messages task_state_0 [AudioThreadMessage.seekAudio "s" 42]).2.2
      = DrainResult.toPacket ∧
    (paused_step task_state_0 (AudioThreadMessage.seekAudio "t" 42)).1.audio_info.position = 42 ∧
    (paused_step task_state_0 (AudioThreadMessage.seekAudio "t" 42)).1.is_playing
      = task_state_0.is_playing ∧
    (paused_step task_state_0 (AudioThreadMessage.seekAudio "t" 42)).2
      = [TaskEffect.formatSeek 42, TaskEffect.posSnapshot (some (false, 42))] ∧
    (send_sync_status
      { state_abc with audio_info := { audio_name := "", duration := 0, position := 42 } }).position
      = 42) :=
  ⟨rfl,
   seek_sets_position task_state_0 task_state_0 "s" "t" 42
     { state_abc with audio_info := { audio_name := "", duration := 0, position := 42 } } rfl⟩

/-- C6 counterexample: when no observer window is active, the decode task
does not publish the (true, position) snapshot to the position tracker — the
snapshot publish sits inside the window check, while the claim says only the
FFT push is conditional on it. -/
theorem packet_snapshot_counterexample :
    TaskEffect.posSnapshot (some (true, 7)) ∉ (on_packet_decoded task_state_0 7 false).2 ∧
    (on_packet_decoded task_state_0 7 false).2 = [TaskEffect.sinkWrite] ∧
    (on_packet_decoded task_state_0 7 false).1.audio_info.position = 7 := by
  refine ⟨?_, ?_, ?_⟩ <;> decide

/-- C6 amended: for every successfully decoded packet the shared AudioInfo
position (and the loop's last position) is updated to the packet timestamp
unconditionally and the PCM buffer is always written to the output sink, but
the (true, position) snapshot publish to the position tracker, the FFT
buffer push and the FFT trigger are all conditional on at least one
observer/window being active. -/
theorem packet_decoded_effects_amended (s : PlayTaskState) (p : ℚ) (w : Bool) :
    (on_packet_decoded s p w).1.audio_info.position = p ∧
    (on_packet_decoded s p w).1.last_play_pos = p ∧
    (TaskEffect.posSnapshot (some (true, p)) ∈ (on_packet_decoded s p w).2 ↔ w = true) ∧
    (TaskEffect.fftPush ∈ (on_packet_decoded s p w).2 ↔ w = true) ∧
    (TaskEffect.fftTrigger ∈ (on_packet_decoded s p w).2 ↔ w = true) ∧
    TaskEffect.sinkWrite ∈ (on_packet_decoded s p w).2 := by
  cases w <;> refine ⟨rfl, rfl, ?_, ?_, ?_, ?_⟩ <;> simp [on_packet_decoded]

/-- C7: in the decode loop, end-of-stream (an UnexpectedEof I/O error whose
message is "end of stream") terminates the loop as success; a would-block
I/O condition is retried; every other I/O error, and every non-I/O error
from the packet reader, terminates the loop with an error; a packet-level
decode error is skipped and the loop continues; any other decoder error
terminates the loop with an error. -/
theorem decode_loop_error_policy (P B : Type) (packet : P) (buf : B) (m : String)
    (hm : m ≠ "end of stream") :
    classify_next_packet
        (NextPacketResult.ioError IoErrorKind.unexpectedEof "end of stream"
          : NextPacketResult P)
      = LoopStep.breakOk ∧
    classify_next_packet (NextPacketResult.ioError IoErrorKind.wouldBlock m : NextPacketResult P)
      = LoopStep.retry ∧
    classify_next_packet (NextPacketResult.ioError IoErrorKind.unexpectedEof m : NextPacketResult P)
      = LoopStep.breakErr m ∧
    classify_next_packet (NextPacketResult.ioError IoErrorKind.otherKind m : NextPacketResult P)
      = LoopStep.breakErr m ∧
    classify_next_packet (NextPacketResult.otherError m : NextPacketResult P)
      = LoopStep.breakErr m ∧
    classify_next_packet (NextPacketResult.ok packet) = LoopStep.decodePacket packet ∧
    classify_decode (DecodeResult.decodeError m : DecodeResult B) = DecodeStep.skipPacket ∧
    classify_decode (DecodeResult.otherError m : DecodeResult B) = DecodeStep.breakErr m ∧
    classify_decode (DecodeResult.ok buf) = DecodeStep.useBuffer buf := by
  refine ⟨?_, rfl, ?_, rfl, rfl, rfl, rfl, rfl, rfl⟩
  · simp [classify_next_packet]
  · simp [classify_next_packet, hm]

/-- C7 witness: the error-policy classification at a concrete non-EOF
message. -/
theorem decode_loop_error_policy_witness :
    ("io fail" ≠ "end of stream") ∧
    (classify_next_packet
        (NextPacketResult.ioError IoErrorKind.unexpectedEof "end of stream"
          : NextPacketResult Unit)
      = LoopStep.breakOk ∧
    classify_next_packet
        (NextPacketResult.ioError IoErrorKind.wouldBlock "io fail" : NextPacketResult Unit)
      = LoopStep.retry ∧
    classify_next_packet
        (NextPacketResult.ioError IoErrorKind.unexpectedEof "io fail" : NextPacketResult Unit)
      = LoopStep.breakErr "io fail" ∧
    classify_next_packet
        (NextPacketResult.ioError IoErrorKind.otherKind "io fail" : NextPacketResult Unit)
      = LoopStep.breakErr "io fail" ∧
    classify_next_packet (NextPacketResult.otherError "io fail" : NextPacketResult Unit)
      = LoopStep.breakErr "io fail" ∧
    classify_next_packet (NextPacketResult.ok ()) = LoopStep.decodePacket () ∧
    classify_decode (DecodeResult.decodeError "io fail" : DecodeResult Unit)
      = DecodeStep.skipPacket ∧
    classify_decode (DecodeResult.otherError "io fail" : DecodeResult Unit)
      = DecodeStep.breakErr "io fail" ∧
    classify_decode (DecodeResult.ok ()) = DecodeStep.useBuffer ()) :=
  ⟨by decide, decode_loop_error_policy Unit Unit () () "io fail" (by decide)⟩

/-- C1 counterexample: a tracker that started at time 0 and receives its
first snapshot (true, 10) at time 5 emits 15 immediately and 15.5 half a
second later, not 10 and 10.5: receiving a playing snapshot while
uninitialized does not re-anchor the monotonic clock (`inst`), so the
emitted position is not p + elapsed-time-since-that-snapshot. -/
theorem tracker_extrapolation_counterexample :
    (tracker_run (TrackerState.start 0)
      [(TrackerInput.recv (some (true, 10)), 5),
       (TrackerInput.emptyMailbox, 11/2)]).2 = [15, 31/2] ∧
    ((31 : ℚ)/2 ≠ 10 + 1/2) := by
  constructor
  · norm_num [tracker_run, tracker_step, TrackerState.start]
  · norm_num

/-- C1 amended: when the tracker is initialized and in the not-playing
state, receiving Some((true, p)) at time t re-anchors the baseline to
(p, t) and every subsequent tick — while the only further inputs are empty
mailboxes or playing snapshots, which are ignored and change no play
state — emits p + elapsed-time-since-that-snapshot; a playing snapshot
received while uninitialized or while already playing does not re-anchor
the clock.  Receiving Some((false, q)) emits q, leaves the tracker
not-playing, and no extrapolated positions are emitted until a later
playing snapshot arrives. -/
theorem tracker_extrapolation_amended (s : TrackerState) (p q t : ℚ)
    (trace etrace : List (TrackerInput × ℚ))
    (hin : s.is_inited = true) (hnp : s.last_is_playing = false)
    (htr : ∀ it ∈ trace, it.1 = TrackerInput.emptyMailbox ∨
      ∃ r : ℚ, it.1 = TrackerInput.recv (some (true, r)))
    (het : ∀ it ∈ etrace, it.1 = TrackerInput.emptyMailbox) :
    (tracker_step s (TrackerInput.recv (some (true, p))) t).2 = [p] ∧
    (tracker_step s (TrackerInput.recv (some (true, p))) t).1 = ⟨true, true, p, t⟩ ∧
    (tracker_run (tracker_step s (TrackerInput.recv (some (true, p))) t).1 trace).2
      = trace.map (fun it => p + (it.2 - t)) ∧
    (tracker_step s (TrackerInput.recv (some (false, q))) t).2 = [q] ∧
    ((tracker_step s (TrackerInput.recv (some (false, q))) t).1).last_is_playing = false ∧
    (tracker_run (tracker_step s (TrackerInput.recv (some (false, q))) t).1 etrace).2 = [] := by
  obtain ⟨si, sl, sb, sn⟩ := s
  simp only at hin hnp
  subst hin; subst hnp
  have h1 : (tracker_step ⟨true, false, sb, sn⟩ (TrackerInput.recv (some (true, p))) t).1
      = (⟨true, true, p, t⟩ : TrackerState) := by
    simp [tracker_step]
  refine ⟨?_, h1, ?_, ?_, ?_, ?_⟩
  · simp [tracker_step]
  · rw [h1]; exact tracker_run_while_playing p t trace htr
  · simp [tracker_step]
  · simp [tracker_step]
  · exact tracker_run_while_stopped _ (by simp [tracker_step]) etrace het

/-- C1 witness: re-anchoring at time 5 with position 10, one tick half a
second later; then a stopping snapshot and one idle tick with no output. -/
theorem tracker_extrapolation_amended_witness :
    ((⟨true, false, 0, 0⟩ : TrackerState).is_inited = true) ∧
    ((⟨true, false, 0, 0⟩ : TrackerState).last_is_playing = false) ∧
    ((tracker_step ⟨true, false, 0, 0⟩ (TrackerInput.recv (some (true, 10))) 5).2 = [10] ∧
    (tracker_step ⟨true, false, 0, 0⟩ (TrackerInput.recv (some (true, 10))) 5).1
      = ⟨true, true, 10, 5⟩ ∧
    (tracker_run (tracker_step ⟨true, false, 0, 0⟩ (TrackerInput.recv (some (true, 10))) 5).1
        [(TrackerInput.emptyMailbox, 11/2)]).2
      = [(TrackerInput.emptyMailbox, (11:ℚ)/2)].map (fun it => 10 + (it.2 - 5)) ∧
    (tracker_step ⟨true, false, 0, 0⟩ (TrackerInput.recv (some (false, 3))) 5).2 = [3] ∧
    ((tracker_step ⟨true, false, 0, 0⟩ (TrackerInput.recv (some (false, 3))) 5).1).last_is_playing
      = false ∧
    (tracker_run (tracker_step ⟨true, false, 0, 0⟩ (TrackerInput.recv (some (false, 3))) 5).1
        [(TrackerInput.emptyMailbox, 6)]).2 = []) :=
  ⟨rfl, rfl,
   tracker_extrapolation_amended ⟨true, false, 0, 0⟩ 10 3 5
     [(TrackerInput.emptyMailbox, 11/2)] [(TrackerInput.emptyMailbox, 6)]
     rfl rfl (by simp) (by simp)⟩

/-- C2 counterexample: a fatal stream-level I/O error inside the decode loop
emits no LoadError at all (the loop result is only logged and swallowed),
and LoadAudio and PlayStatus were already emitted for that file — against
the claim that every such failure emits exactly one LoadError and never
LoadAudio or PlayStatus. -/
theorem load_error_counterexample :
    countLoadError (play_audio_run "m" 100
      (LocalLoadOutcome.streamResult (Except.ok (PlayLoopExit.fatalIoError "io fail")))).events
      = 0 ∧
    countLoadAudio (play_audio_run "m" 100
      (LocalLoadOutcome.streamResult (Except.ok (PlayLoopExit.fatalIoError "io fail")))).events
      = 1 ∧
    countPlayStatus (play_audio_run "m" 100
      (LocalLoadOutcome.streamResult (Except.ok (PlayLoopExit.fatalIoError "io fail")))).events
      = 1 ∧
    (play_audio_run "m" 100
      (LocalLoadOutcome.streamResult (Except.ok (PlayLoopExit.fatalIoError "io fail")))).next_song_requests
      = 1 :=
  ⟨rfl, rfl, rfl, rfl⟩

/-- C2 amended: a load-phase failure (unreadable file, probe failure, no
default track, no usable decoder) makes the task emit exactly the sequence
LoadingAudio then one LoadError — so never LoadAudio or PlayStatus for that
file — followed by exactly one implicit NextSong request; a failure inside
the decode loop (fatal stream I/O or codec error, disconnected control
channel) emits no LoadError — it is only logged, and LoadAudio and
PlayStatus{true} were already emitted at load time — and is followed by the
same single implicit NextSong, which `play_audio` sends on every exit. -/
theorem play_audio_failure_events (music_id : String) (duration : ℚ) :
    ((play_audio_run music_id duration LocalLoadOutcome.openFailed).events
        = [AudioThreadEvent.loadingAudio music_id,
           AudioThreadEvent.loadError "无法打开本地音频文件"] ∧
      (play_audio_run music_id duration LocalLoadOutcome.openFailed).next_song_requests = 1) ∧
    (∀ e : StreamLoadError,
      (play_audio_run music_id duration
          (LocalLoadOutcome.streamResult (Except.error e))).events
        = [AudioThreadEvent.loadingAudio music_id,
           AudioThreadEvent.loadError e.message] ∧
      countLoadError (play_audio_run music_id duration
          (LocalLoadOutcome.streamResult (Except.error e))).events = 1 ∧
      countLoadAudio (play_audio_run music_id duration
          (LocalLoadOutcome.streamResult (Except.error e))).events = 0 ∧
      countPlayStatus (play_audio_run music_id duration
          (LocalLoadOutcome.streamResult (Except.error e))).events = 0 ∧
      (play_audio_run music_id duration
          (LocalLoadOutcome.streamResult (Except.error e))).next_song_requests = 1) ∧
    (∀ ex : PlayLoopExit,
      (play_audio_run music_id duration
          (LocalLoadOutcome.streamResult (Except.ok ex))).events
        = [AudioThreadEvent.loadingAudio music_id,
           AudioThreadEvent.loadAudio music_id duration,
           AudioThreadEvent.playStatus true,
           AudioThreadEvent.setDuration duration] ∧
      countLoadError (play_audio_run music_id duration
          (LocalLoadOutcome.streamResult (Except.ok ex))).events = 0 ∧
      (play_audio_run music_id duration
          (LocalLoadOutcome.streamResult (Except.ok ex))).next_song_requests = 1) :=
  ⟨⟨rfl, rfl⟩,
   fun _e => ⟨rfl, rfl, rfl, rfl, rfl⟩,
   fun _ex => ⟨rfl, rfl, rfl⟩⟩


